import Mathlib

set_option maxRecDepth 10000
set_option maxHeartbeats 2000000

/-!
Verification of the Hovercode client library's HTTP transport layer
(`hovercode/base_client.py`) and webhook signature verifier
(`hovercode/webhooks.py`), shallowly embedded in Lean 4.

Python byte strings are modelled as `List Nat` (each element < 256 where it
matters), Python `str` as Lean `String` (a sequence of Unicode code points),
`float` seconds as `ℚ` (the backoff arithmetic `base * 2^i` is exact), and
fallible operations as `Except`.
-/

namespace Hovercode

/-- JSON values as produced by `response.json()`.  Numbers are modelled as
rationals; none of the verified properties depend on numeric payloads. -/
inductive JsonValue where
  | null
  | bool (b : Bool)
  | num (q : ℚ)
  | str (s : String)
  | arr (elems : List JsonValue)
  | obj (fields : List (String × JsonValue))

/-- An HTTP response as seen by `BaseClient`: its status code, the outcome of
`response.json()` (`none` models the `ValueError` raised on malformed JSON),
and `response.text`. -/
structure Response where
  status : Nat
  jsonResult : Option JsonValue
  text : String

/-- The kinds in the exception taxonomy of `hovercode/exceptions.py`. -/
inductive ErrorKind where
  | validation
  | authentication
  | notFound
  | rateLimit
  | server
  | network
  | api
  deriving DecidableEq

/-- An `ApiError` instance: kind (the dynamic class), message, optional HTTP
status code and optional decoded payload, as in `hovercode/exceptions.py`. -/
structure ApiErrorData where
  kind : ErrorKind
  message : String
  statusCode : Option Nat
  responseData : Option JsonValue

/-- `BaseClient._parse_response_data`: `{}` for status 204; otherwise the JSON
payload when `response.json()` succeeds, else the raw `response.text`. -/
def parseResponseData (r : Response) : JsonValue :=
  if r.status = 204 then .obj []
  else
    match r.jsonResult with
    | some v => v
    | none => .str r.text

/-- Python's `str.isspace` / `str.strip` whitespace set (Py_UNICODE_ISSPACE):
U+0009–U+000D, U+001C–U+001F, space, U+0085, U+00A0, U+1680, U+2000–U+200A,
U+2028, U+2029, U+202F, U+205F, U+3000. -/
def pyIsSpace (c : Char) : Bool :=
  let n := c.toNat
  (9 ≤ n && n ≤ 13) || (28 ≤ n && n ≤ 31) || n == 32 || n == 133 || n == 160 ||
    n == 5760 || (8192 ≤ n && n ≤ 8202) || n == 8232 || n == 8233 ||
    n == 8239 || n == 8287 || n == 12288

/-- Python `s.strip()`: remove leading and trailing whitespace. -/
def pyStrip (s : String) : String :=
  String.mk (((s.data.dropWhile pyIsSpace).reverse.dropWhile pyIsSpace).reverse)

/-- Truthiness of `value.strip()` for a string `value`: true iff the string
contains at least one non-whitespace character. -/
def hasNonWs (s : String) : Bool :=
  s.data.any (fun c => !pyIsSpace c)

/-- One step of the `for key in ("detail", "error", "message")` loop body in
`BaseClient._extract_error_message`: the value under `key`, provided it is a
string whose `strip()` is truthy. -/
def goodVal (fields : List (String × JsonValue)) (key : String) : Option String :=
  match List.lookup key fields with
  | some (.str v) => if hasNonWs v then some v else none
  | _ => none

/-- The `for` loop of `BaseClient._extract_error_message`: first key (in list
order) holding an acceptable string value. -/
def findErrValue (fields : List (String × JsonValue)) : List String → Option String
  | [] => none
  | k :: ks =>
    match goodVal fields k with
    | some v => some v
    | none => findErrValue fields ks

/-- The fixed key priority list of `BaseClient._extract_error_message`. -/
def errorKeys : List String := ["detail", "error", "message"]

/-- `BaseClient._extract_error_message`. -/
def extractErrorMessage (statusCode : Nat) (responseData : JsonValue)
    (method url : String) : String :=
  match responseData with
  | .obj fields =>
    match findErrValue fields errorKeys with
    | some v => s!"{method} {url} failed ({statusCode}): {v}"
    | none => s!"{method} {url} failed ({statusCode})."
  | .str s =>
    if hasNonWs s then s!"{method} {url} failed ({statusCode}): {s}"
    else s!"{method} {url} failed ({statusCode})."
  | _ => s!"{method} {url} failed ({statusCode})."

/-- The status-to-kind dispatch chain of `BaseClient._map_http_error`. -/
def mapKind (statusCode : Nat) : ErrorKind :=
  if statusCode = 400 then .validation
  else if statusCode = 401 then .authentication
  else if statusCode = 404 then .notFound
  else if statusCode = 429 then .rateLimit
  else if 500 ≤ statusCode ∧ statusCode ≤ 599 then .server
  else .api

/-- `BaseClient._map_http_error`: map a non-2xx status to an error instance. -/
def mapHttpError (statusCode : Nat) (responseData : JsonValue)
    (method url : String) : ApiErrorData :=
  { kind := mapKind statusCode,
    message := extractErrorMessage statusCode responseData method url,
    statusCode := some statusCode,
    responseData := some responseData }

/-- Python `s.lstrip("/")`: remove all leading slashes. -/
def lstripSlash (s : String) : String :=
  String.mk (s.data.dropWhile (fun c => c == '/'))

/-- Python `s.rstrip("/")`: remove all trailing slashes. -/
def rstripSlash (s : String) : String :=
  String.mk ((s.data.reverse.dropWhile (fun c => c == '/')).reverse)

/-- URL construction in `BaseClient._request`:
`f"{self._base_url}/{endpoint.lstrip('/')}"`, where `self._base_url` is the
constructor's `base_url.rstrip("/")`. -/
def buildUrl (storedBaseUrl endpoint : String) : String :=
  storedBaseUrl ++ "/" ++ lstripSlash endpoint

/-- The errors `BaseClient.__init__` can raise. -/
inductive InitError where
  | validation (message : String)
  | authentication (message : String)
  deriving DecidableEq

/-- The state stored by a successfully constructed `BaseClient` that the
verified properties depend on. -/
structure ClientState where
  baseUrl : String
  authorizationHeader : String
  deriving DecidableEq

/-- Python `a or b` for `a : Optional[str]`: the first operand when it is
truthy (a non-empty string), otherwise the second operand. -/
def pyOrStr (a b : Option String) : Option String :=
  match a with
  | some t => if t = "" then b else some t
  | none => b

/-- The message of the `AuthenticationError` raised by `BaseClient.__init__`. -/
def missingTokenMessage : String :=
  "Missing Hovercode API token. Provide api_token= or set HOVERCODE_API_TOKEN."

/-- `BaseClient.__init__` restricted to the validation/authentication logic:
`api_token` is the explicit argument (`none` models Python `None`), `envToken`
the value of the `HOVERCODE_API_TOKEN` environment variable (`none` when
unset).  The `base_url` emptiness check comes first in the source. -/
def initClient (apiToken envToken : Option String) (baseUrl : String) :
    Except InitError ClientState :=
  if baseUrl = "" then
    .error (.validation "base_url must be a non-empty string.")
  else
    match pyOrStr apiToken envToken with
    | some t =>
      if t = "" then .error (.authentication missingTokenMessage)
      else .ok { baseUrl := rstripSlash baseUrl,
                 authorizationHeader := "Token " ++ t }
    | none => .error (.authentication missingTokenMessage)

/-- Whether construction failed with the authentication sub-kind. -/
def failsWithAuth (r : Except InitError ClientState) : Bool :=
  match r with
  | .error (.authentication _) => true
  | _ => false

/-- Whether construction failed with the validation sub-kind. -/
def failsWithValidation (r : Except InitError ClientState) : Bool :=
  match r with
  | .error (.validation _) => true
  | _ => false

/-- Whether Python's `resolved_token = api_token or os.getenv(...)` followed by
`if not resolved_token` accepts: some operand yields a non-empty token. -/
def tokenResolves (apiToken envToken : Option String) : Bool :=
  match pyOrStr apiToken envToken with
  | some t => decide (t ≠ "")
  | none => false

/-- The outcome of one attempted network round-trip inside
`BaseClient._request`: either `requests` raises a transport exception (with
`str(exc)` description) or a response arrives. -/
inductive AttemptOutcome where
  | exc (description : String)
  | resp (r : Response)

/-- `BaseClient._RETRYABLE_STATUS_CODES = frozenset({500, 502, 503, 504})`. -/
def retryableStatus (status : Nat) : Bool :=
  status == 500 || status == 502 || status == 503 || status == 504

/-- The `NetworkError` raised when the transport fails on the final attempt. -/
def networkErrorOf (method url description : String) : ApiErrorData :=
  { kind := .network,
    message := "Network error calling " ++ method ++ " " ++ url ++ ": " ++ description,
    statusCode := none, responseData := none }

/-- The fallback `NetworkError` placed after the retry loop
("Unexpected retry loop exit"). -/
def fallbackNetworkError (method url : String) : ApiErrorData :=
  { kind := .network,
    message := "Unexpected retry loop exit for " ++ method ++ " " ++ url,
    statusCode := none, responseData := none }

/-- Observable outcome of one `_request` call: the returned payload or raised
error, the number of attempted round-trips, the backoff sleeps performed (in
seconds, in order), and whether the fall-through code after the loop ran. -/
structure RequestTrace where
  result : Except ApiErrorData JsonValue
  attempts : Nat
  sleeps : List ℚ
  fellThrough : Bool

/-- One iteration of the retry loop of `BaseClient._request` at loop index
`attempt`: on a transport exception or a retryable status with
`attempt < max_retries`, sleep `backoff * 2 ^ attempt`
(`BaseClient._sleep_backoff`) and continue with the rest of the loop
(`next`); otherwise return or raise from the body. -/
def requestIter (method url : String) (backoff : ℚ) (maxRetries : Nat)
    (outcome : AttemptOutcome) (attempt : Nat) (next : RequestTrace) :
    RequestTrace :=
  match outcome with
  | .exc description =>
    if attempt < maxRetries then
      { next with attempts := next.attempts + 1,
                  sleeps := backoff * 2 ^ attempt :: next.sleeps }
    else
      { result := .error (networkErrorOf method url description),
        attempts := 1, sleeps := [], fellThrough := false }
  | .resp r =>
    if retryableStatus r.status && decide (attempt < maxRetries) then
      { next with attempts := next.attempts + 1,
                  sleeps := backoff * 2 ^ attempt :: next.sleeps }
    else
      let responseData := parseResponseData r
      if 200 ≤ r.status ∧ r.status < 300 then
        { result := .ok responseData, attempts := 1, sleeps := [],
          fellThrough := false }
      else
        { result := .error (mapHttpError r.status responseData method url),
          attempts := 1, sleeps := [], fellThrough := false }

/-- The retry loop of `BaseClient._request`, from loop index `attempt` with
`fuel` iterations of `range(max_retries + 1)` remaining.  `env i` is the
outcome of the round-trip attempted at loop index `i`.  Fuel 0 is the exit
of the `for` loop, reaching the trailing `raise NetworkError`. -/
def requestGo (method url : String) (backoff : ℚ) (maxRetries : Nat)
    (env : Nat → AttemptOutcome) : Nat → Nat → RequestTrace
  | _, 0 =>
    { result := .error (fallbackNetworkError method url), attempts := 0,
      sleeps := [], fellThrough := true }
  | attempt, fuel + 1 =>
    requestIter method url backoff maxRetries (env attempt) attempt
      (requestGo method url backoff maxRetries env (attempt + 1) fuel)

/-- One-step unfolding of `requestGo` on positive fuel. -/
theorem requestGo_succ (method url : String) (backoff : ℚ) (maxRetries : Nat)
    (env : Nat → AttemptOutcome) (attempt fuel : Nat) :
    requestGo method url backoff maxRetries env attempt (fuel + 1) =
      requestIter method url backoff maxRetries (env attempt) attempt
        (requestGo method url backoff maxRetries env (attempt + 1) fuel) :=
  rfl

/-- `BaseClient._request` (the part after URL/timeout resolution): run the
retry loop `for attempt in range(self._max_retries + 1)`. -/
def runRequest (method url : String) (backoff : ℚ) (maxRetries : Nat)
    (env : Nat → AttemptOutcome) : RequestTrace :=
  requestGo method url backoff maxRetries env 0 (maxRetries + 1)

/-! SHA-256 (FIPS 180-4) over byte lists, modelling `hashlib.sha256`.
32-bit words are `Nat` values reduced modulo `2 ^ 32`. -/

/-- Truncate to a 32-bit word. -/
def w32 (n : Nat) : Nat := n % 4294967296

/-- Right-rotation of a 32-bit word. -/
def rotr32 (k x : Nat) : Nat := w32 ((x >>> k) ||| (x <<< (32 - k)))

/-- SHA-256 `Ch(x, y, z)`. -/
def shaCh (x y z : Nat) : Nat := (x &&& y) ^^^ ((x ^^^ 4294967295) &&& z)

/-- SHA-256 `Maj(x, y, z)`. -/
def shaMaj (x y z : Nat) : Nat := (x &&& y) ^^^ (x &&& z) ^^^ (y &&& z)

/-- SHA-256 `Σ₀`. -/
def bigSigma0 (x : Nat) : Nat := rotr32 2 x ^^^ rotr32 13 x ^^^ rotr32 22 x

/-- SHA-256 `Σ₁`. -/
def bigSigma1 (x : Nat) : Nat := rotr32 6 x ^^^ rotr32 11 x ^^^ rotr32 25 x

/-- SHA-256 `σ₀`. -/
def smallSigma0 (x : Nat) : Nat := rotr32 7 x ^^^ rotr32 18 x ^^^ (x >>> 3)

/-- SHA-256 `σ₁`. -/
def smallSigma1 (x : Nat) : Nat := rotr32 17 x ^^^ rotr32 19 x ^^^ (x >>> 10)

/-- The 64 SHA-256 round constants (FIPS 180-4 §4.2.2), in decimal. -/
def sha256K : List Nat :=
  [1116352408, 1899447441, 3049323471, 3921009573, 961987163,
   1508970993, 2453635748, 2870763221, 3624381080, 310598401,
   607225278, 1426881987, 1925078388, 2162078206, 2614888103,
   3248222580, 3835390401, 4022224774, 264347078, 604807628,
   770255983, 1249150122, 1555081692, 1996064986, 2554220882,
   2821834349, 2952996808, 3210313671, 3336571891, 3584528711,
   113926993, 338241895, 666307205, 773529912, 1294757372,
   1396182291, 1695183700, 1986661051, 2177026350, 2456956037,
   2730485921, 2820302411, 3259730800, 3345764771, 3516065817,
   3600352804, 4094571909, 275423344, 430227734, 506948616,
   659060556, 883997877, 958139571, 1322822218, 1537002063,
   1747873779, 1955562222, 2024104815, 2227730452, 2361852424,
   2428436474, 2756734187, 3204031479, 3329325298]

/-- The SHA-256 initial hash value (FIPS 180-4 §5.3.3), in decimal. -/
def sha256H0 : List Nat :=
  [1779033703, 3144134277, 1013904242,
   2773480762, 1359893119, 2600822924,
   528734635, 1541459225]

/-- SHA-256 message padding: append `0x80`, zeros, and the 8-byte big-endian
bit length, reaching a multiple of 64 bytes. -/
def sha256Pad (msg : List Nat) : List Nat :=
  let L := msg.length
  let zeros := (56 + 64 - (L + 1) % 64) % 64
  msg ++ 0x80 :: List.replicate zeros 0 ++
    (List.range 8).map (fun i => ((8 * L) >>> ((7 - i) * 8)) &&& 255)

/-- Big-endian 4-byte groups to 32-bit words. -/
def bytesToWords : List Nat → List Nat
  | a :: b :: c :: d :: rest =>
    ((((a <<< 8) ||| b) <<< 8 ||| c) <<< 8 ||| d) :: bytesToWords rest
  | _ => []

/-- 32-bit words to big-endian bytes. -/
def wordsToBytes (ws : List Nat) : List Nat :=
  (ws.map (fun w => [(w >>> 24) &&& 255, (w >>> 16) &&& 255,
                     (w >>> 8) &&& 255, w &&& 255])).flatten

/-- Extend a 16-word block to the 64-word message schedule. -/
def sha256Schedule (block : List Nat) : Array Nat :=
  (List.range 48).foldl
    (fun W i =>
      let t := i + 16
      W.push (w32 (smallSigma1 (W.getD (t - 2) 0) + W.getD (t - 7) 0 +
        smallSigma0 (W.getD (t - 15) 0) + W.getD (t - 16) 0)))
    block.toArray

/-- One SHA-256 compression of a 16-word block into the hash state. -/
def sha256Compress (H block : List Nat) : List Nat :=
  let W := sha256Schedule block
  let final := (List.range 64).foldl
    (fun (s : Nat × Nat × Nat × Nat × Nat × Nat × Nat × Nat) t =>
      let (a, b, c, d, e, f, g, h) := s
      let T1 := w32 (h + bigSigma1 e + shaCh e f g + (sha256K.getD t 0) + W.getD t 0)
      let T2 := w32 (bigSigma0 a + shaMaj a b c)
      (w32 (T1 + T2), a, b, c, w32 (d + T1), e, f, g))
    (H.getD 0 0, H.getD 1 0, H.getD 2 0, H.getD 3 0,
     H.getD 4 0, H.getD 5 0, H.getD 6 0, H.getD 7 0)
  match final with
  | (a, b, c, d, e, f, g, h) =>
    [w32 (H.getD 0 0 + a), w32 (H.getD 1 0 + b), w32 (H.getD 2 0 + c),
     w32 (H.getD 3 0 + d), w32 (H.getD 4 0 + e), w32 (H.getD 5 0 + f),
     w32 (H.getD 6 0 + g), w32 (H.getD 7 0 + h)]

/-- SHA-256 digest (32 bytes) of a byte list. -/
def sha256 (msg : List Nat) : List Nat :=
  let words := bytesToWords (sha256Pad msg)
  wordsToBytes ((List.range (words.length / 16)).foldl
    (fun H i => sha256Compress H ((words.drop (16 * i)).take 16)) sha256H0)

/-- HMAC-SHA256 (RFC 2104) with a 64-byte block size, modelling `hmac.new`
with `hashlib.sha256`. -/
def hmacSha256 (key msg : List Nat) : List Nat :=
  let k0 := if key.length > 64 then sha256 key else key
  let kPad := k0 ++ List.replicate (64 - k0.length) 0
  sha256 ((kPad.map (fun b => b ^^^ 0x5c)) ++
    sha256 ((kPad.map (fun b => b ^^^ 0x36)) ++ msg))

/-- The sixteen lowercase hexadecimal digit characters. -/
def hexDigitChars : List Char := "0123456789abcdef".data

/-- Two lowercase hex characters of a byte. -/
def hexByte (b : Nat) : List Char :=
  [hexDigitChars.getD ((b / 16) % 16) '0', hexDigitChars.getD (b % 16) '0']

/-- Lowercase hex encoding of a byte list, modelling `.hexdigest()`. -/
def hexEncode (bs : List Nat) : String :=
  String.mk ((bs.map hexByte).flatten)

/-- UTF-8 encoding of one code point. -/
def utf8EncodeChar (c : Char) : List Nat :=
  let n := c.toNat
  if n < 0x80 then [n]
  else if n < 0x800 then
    [0xC0 ||| (n >>> 6), 0x80 ||| (n &&& 0x3F)]
  else if n < 0x10000 then
    [0xE0 ||| (n >>> 12), 0x80 ||| ((n >>> 6) &&& 0x3F), 0x80 ||| (n &&& 0x3F)]
  else
    [0xF0 ||| (n >>> 18), 0x80 ||| ((n >>> 12) &&& 0x3F),
     0x80 ||| ((n >>> 6) &&& 0x3F), 0x80 ||| (n &&& 0x3F)]

/-- Python `s.encode("utf-8")` as a byte list. -/
def utf8Encode (s : String) : List Nat :=
  (s.data.map utf8EncodeChar).flatten

/-- `webhooks.compute_signature`: lowercase hex HMAC-SHA256 of the raw
payload keyed by the UTF-8 bytes of the secret. -/
def computeSignature (secret : String) (rawPayload : List Nat) : String :=
  hexEncode (hmacSha256 (utf8Encode secret) rawPayload)

/-- The exceptions the webhook helpers can raise. -/
inductive PyExc where
  | typeError
  | webhookSignatureError (message : String)
  deriving DecidableEq

/-- Whether an exception is of the validation kind (`ValidationError` or a
subclass, per the class hierarchy of `hovercode/exceptions.py`;
`WebhookSignatureError` subclasses `ValidationError`). -/
def excIsValidationKind : PyExc → Bool
  | .typeError => false
  | .webhookSignatureError _ => true

/-- Whether every code point of a string is ASCII (`PyUnicode_IS_ASCII`). -/
def isAsciiStr (s : String) : Bool :=
  s.data.all (fun c => c.toNat < 128)

/-- The length check plus or-accumulated xor comparison performed by CPython's
`_tscmp` over the (ASCII) character data. -/
def constTimeEq (a b : List Char) : Bool :=
  a.length == b.length &&
    (List.zip a b).foldl (fun acc p => acc ||| (p.1.toNat ^^^ p.2.toNat)) 0 == 0

/-- `hmac.compare_digest` on two `str` arguments: raises `TypeError` when
either contains a non-ASCII character, otherwise compares in constant time. -/
def compareDigest (a b : String) : Except PyExc Bool :=
  if isAsciiStr a && isAsciiStr b then .ok (constTimeEq a.data b.data)
  else .error .typeError

/-- `webhooks.verify_signature`: compare the expected signature with the
whitespace-stripped received signature using `hmac.compare_digest`. -/
def verifySignature (secret : String) (rawPayload : List Nat)
    (receivedSignature : String) : Except PyExc Bool :=
  compareDigest (computeSignature secret rawPayload) (pyStrip receivedSignature)

/-- `webhooks.verify_signature_or_raise`: raise `WebhookSignatureError` when
verification returns false; propagate any exception of the verification. -/
def verifySignatureOrRaise (secret : String) (rawPayload : List Nat)
    (receivedSignature : String) : Except PyExc Unit :=
  match verifySignature secret rawPayload receivedSignature with
  | .ok true => .ok ()
  | .ok false => .error (.webhookSignatureError "Invalid webhook signature.")
  | .error e => .error e

/-! Helper lemmas. -/

theorem dropWhile_head?_false {α : Type} (p : α → Bool) (l : List α) {c : α}
    (h : (l.dropWhile p).head? = some c) : p c = false := by
  induction l with
  | nil => simp [List.dropWhile] at h
  | cons a l ih =>
    by_cases hpa : p a
    · rw [List.dropWhile_cons, if_pos hpa] at h
      exact ih h
    · rw [List.dropWhile_cons, if_neg hpa] at h
      simp only [List.head?_cons, Option.some.injEq] at h
      subst h
      simpa using hpa

/-- `lstripSlash` never leaves a leading slash. -/
theorem lstripSlash_head (endpoint : String) {c : Char}
    (h : (lstripSlash endpoint).data.head? = some c) : c ≠ '/' := by
  intro hc
  subst hc
  have := dropWhile_head?_false (fun c => c == '/') endpoint.data h
  simp at this

/-- `rstripSlash` never leaves a trailing slash. -/
theorem rstripSlash_getLast (s : String) {c : Char}
    (h : (rstripSlash s).data.getLast? = some c) : c ≠ '/' := by
  intro hc
  subst hc
  rw [show (rstripSlash s).data =
      (s.data.reverse.dropWhile (fun c => c == '/')).reverse from rfl,
    List.getLast?_reverse] at h
  have := dropWhile_head?_false (fun c => c == '/') s.data.reverse h
  simp at this

/-- C4: for every non-empty base URL and every endpoint path, the URL built by
`_request` is the stored base (trailing slashes stripped at construction) and
the path joined by exactly one `/`: the stored base never ends in `/`, the
stripped path never starts with `/`, and the URL is their concatenation around
a single `/`. -/
theorem url_single_slash_join (baseUrl endpoint : String) (hb : baseUrl ≠ "") :
    buildUrl (rstripSlash baseUrl) endpoint =
      rstripSlash baseUrl ++ "/" ++ lstripSlash endpoint ∧
    (∀ c, (rstripSlash baseUrl).data.getLast? = some c → c ≠ '/') ∧
    (∀ c, (lstripSlash endpoint).data.head? = some c → c ≠ '/') := by
  refine ⟨rfl, ?_, ?_⟩
  · intro c hc
    exact rstripSlash_getLast baseUrl hc
  · intro c hc
    exact lstripSlash_head endpoint hc

/-- Concrete instance of C4 at a slashed base URL and slashed endpoint. -/
theorem url_single_slash_join_witness :
    buildUrl (rstripSlash "https://hovercode.com/api/v2/") "/hovercode/" =
      "https://hovercode.com/api/v2" ++ "/" ++ "hovercode/" := by
  have h :=
    (url_single_slash_join "https://hovercode.com/api/v2/" "/hovercode/"
      (by decide)).1
  exact h.trans (by decide)

/-- C5: response decoding is total: status 204 yields `{}` regardless of the
body, any other status yields the JSON payload when parsing succeeds and the
raw text when parsing fails; no case raises. -/
theorem parse_response_data_spec (r : Response) :
    (r.status = 204 → parseResponseData r = .obj []) ∧
    (r.status ≠ 204 → ∀ v, r.jsonResult = some v → parseResponseData r = v) ∧
    (r.status ≠ 204 → r.jsonResult = none → parseResponseData r = .str r.text) := by
  refine ⟨fun h => ?_, fun h v hv => ?_, fun h hn => ?_⟩ <;>
    simp [parseResponseData, h, *]

/-- Concrete instances of C5: a 204 with a JSON body, a JSON 200, and a
malformed-JSON 500. -/
theorem parse_response_data_spec_witness :
    parseResponseData ⟨204, some (.bool true), "ignored"⟩ = .obj [] ∧
    parseResponseData ⟨200, some (.bool true), "t"⟩ = .bool true ∧
    parseResponseData ⟨500, none, "oops"⟩ = .str "oops" :=
  ⟨(parse_response_data_spec ⟨204, some (.bool true), "ignored"⟩).1 rfl,
   (parse_response_data_spec ⟨200, some (.bool true), "t"⟩).2.1 (by decide) _ rfl,
   (parse_response_data_spec ⟨500, none, "oops"⟩).2.2 (by decide) rfl⟩

/-- C6: on the non-2xx decode path the error kind is exactly determined by the
status — 400 validation, 401 authentication, 404 not-found, 429 rate-limit,
500–599 server, anything else the generic API error — and the error carries
the status code and the decoded payload. -/
theorem map_http_error_spec (s : Nat) (d : JsonValue) (m u : String)
    (h : ¬(200 ≤ s ∧ s < 300)) :
    (mapHttpError s d m u).statusCode = some s ∧
    (mapHttpError s d m u).responseData = some d ∧
    (s = 400 → (mapHttpError s d m u).kind = .validation) ∧
    (s = 401 → (mapHttpError s d m u).kind = .authentication) ∧
    (s = 404 → (mapHttpError s d m u).kind = .notFound) ∧
    (s = 429 → (mapHttpError s d m u).kind = .rateLimit) ∧
    (500 ≤ s → s ≤ 599 → (mapHttpError s d m u).kind = .server) ∧
    (s ≠ 400 → s ≠ 401 → s ≠ 404 → s ≠ 429 → ¬(500 ≤ s ∧ s ≤ 599) →
      (mapHttpError s d m u).kind = .api) := by
  have hk : (mapHttpError s d m u).kind = mapKind s := rfl
  refine ⟨rfl, rfl, ?_, ?_, ?_, ?_, ?_, ?_⟩
  · rintro rfl; rfl
  · rintro rfl; rfl
  · rintro rfl; rfl
  · rintro rfl; rfl
  · intro h5a h5b
    refine hk.trans ?_
    unfold mapKind
    rw [if_neg (by omega), if_neg (by omega), if_neg (by omega),
      if_neg (by omega), if_pos ⟨h5a, h5b⟩]
  · intro n1 n2 n3 n4 n5
    refine hk.trans ?_
    unfold mapKind
    rw [if_neg n1, if_neg n2, if_neg n3, if_neg n4, if_neg n5]

/-- Concrete instances of C6 at 503 (server) and 418 (generic API error). -/
theorem map_http_error_spec_witness :
    (mapHttpError 503 (.obj []) "GET" "u").statusCode = some 503 ∧
    (mapHttpError 503 (.obj []) "GET" "u").kind = .server ∧
    (mapHttpError 418 .null "GET" "u").kind = .api :=
  ⟨(map_http_error_spec 503 (.obj []) "GET" "u" (by omega)).1,
   (map_http_error_spec 503 (.obj []) "GET" "u" (by omega)).2.2.2.2.2.2.1
     (by omega) (by omega),
   (map_http_error_spec 418 .null "GET" "u" (by omega)).2.2.2.2.2.2.2
     (by omega) (by omega) (by omega) (by omega) (by omega)⟩

/-- C3 (amended): for a non-empty `base_url`, construction fails with the
authentication error exactly when neither the explicit argument nor the
environment variable yields a non-empty token; a non-empty explicit token wins
over the environment variable and is stored in the `Token <value>` header; the
validation error is raised exactly for an empty `base_url` (that check runs
before token resolution). -/
theorem init_client_spec (apiToken envToken : Option String) (baseUrl : String) :
    (baseUrl ≠ "" →
      (failsWithAuth (initClient apiToken envToken baseUrl) = true ↔
        tokenResolves apiToken envToken = false)) ∧
    (failsWithValidation (initClient apiToken envToken baseUrl) = true ↔
      baseUrl = "") ∧
    (∀ t, apiToken = some t → t ≠ "" → baseUrl ≠ "" →
      initClient apiToken envToken baseUrl =
        .ok ⟨rstripSlash baseUrl, "Token " ++ t⟩) := by
  refine ⟨fun hb => ?_, ?_, fun t ht hne hb => ?_⟩
  · unfold initClient tokenResolves
    rw [if_neg hb]
    cases hp : pyOrStr apiToken envToken with
    | none => simp [failsWithAuth]
    | some t =>
      by_cases h0 : t = ""
      · subst h0
        simp [failsWithAuth]
      · simp [failsWithAuth, h0]
  · unfold initClient
    by_cases hb : baseUrl = ""
    · simp [hb, failsWithValidation]
    · rw [if_neg hb]
      cases hp : pyOrStr apiToken envToken with
      | none => simp [failsWithValidation, hb]
      | some t => by_cases h0 : t = "" <;> simp [failsWithValidation, h0, hb]
  · subst ht
    unfold initClient
    rw [if_neg hb]
    have hp : pyOrStr (some t) envToken = some t := by simp [pyOrStr, hne]
    rw [hp]
    simp [hne]

/-- Counterexample to C3 as stated: with no token anywhere and an empty
`base_url`, construction fails with the validation error (the `base_url`
check precedes token resolution), not the authentication error the claim's
biconditional requires. -/
theorem init_client_cex :
    failsWithAuth (initClient none none "") = false ∧
    initClient none none "" =
      .error (.validation "base_url must be a non-empty string.") :=
  ⟨rfl, rfl⟩

/-- Concrete instances of C3: an explicit token beating a set environment
token (with trailing-slash stripping of the base), and a missing token
raising the authentication error. -/
theorem init_client_spec_witness :
    initClient (some "tok") (some "envtok") "https://x/" =
      .ok ⟨"https://x", "Token tok"⟩ ∧
    failsWithAuth (initClient none none "https://x") = true := by
  constructor
  · exact ((init_client_spec (some "tok") (some "envtok") "https://x/").2.2 "tok"
      rfl (by decide) (by decide)).trans rfl
  · exact ((init_client_spec none none "https://x").1 (by decide)).mpr rfl

/-- C7 (amended): the mapped error message appends `": <value>"` for the first
of the keys `detail`, `error`, `message` holding a string with at least one
non-whitespace character, or for a string payload with at least one
non-whitespace character; in every other case (including non-empty but
whitespace-only strings) it is the period-terminated form with no colon. -/
theorem extract_error_message_spec (st : Nat) (m u : String) :
    (∀ fields k v, goodVal fields k = some v ↔
      (List.lookup k fields = some (.str v) ∧ hasNonWs v = true)) ∧
    (∀ fields v, goodVal fields "detail" = some v →
      extractErrorMessage st (.obj fields) m u = s!"{m} {u} failed ({st}): {v}") ∧
    (∀ fields v, goodVal fields "detail" = none →
      goodVal fields "error" = some v →
      extractErrorMessage st (.obj fields) m u = s!"{m} {u} failed ({st}): {v}") ∧
    (∀ fields v, goodVal fields "detail" = none → goodVal fields "error" = none →
      goodVal fields "message" = some v →
      extractErrorMessage st (.obj fields) m u = s!"{m} {u} failed ({st}): {v}") ∧
    (∀ fields, goodVal fields "detail" = none → goodVal fields "error" = none →
      goodVal fields "message" = none →
      extractErrorMessage st (.obj fields) m u = s!"{m} {u} failed ({st}).") ∧
    (∀ t, hasNonWs t = true →
      extractErrorMessage st (.str t) m u = s!"{m} {u} failed ({st}): {t}") ∧
    (∀ t, hasNonWs t = false →
      extractErrorMessage st (.str t) m u = s!"{m} {u} failed ({st}).") ∧
    (extractErrorMessage st .null m u = s!"{m} {u} failed ({st}).") ∧
    (∀ b, extractErrorMessage st (.bool b) m u = s!"{m} {u} failed ({st}).") ∧
    (∀ q, extractErrorMessage st (.num q) m u = s!"{m} {u} failed ({st}).") ∧
    (∀ xs, extractErrorMessage st (.arr xs) m u = s!"{m} {u} failed ({st}).") := by
  refine ⟨?_, ?_, ?_, ?_, ?_, ?_, ?_, rfl, fun b => rfl, fun q => rfl, fun xs => rfl⟩
  · intro fields k v
    constructor
    · intro hg
      unfold goodVal at hg
      split at hg
      · split at hg
        · cases hg
          constructor
          · assumption
          · assumption
        · cases hg
      · cases hg
    · rintro ⟨hL, hw⟩
      simp [goodVal, hL, hw]
  · intro fields v hd
    simp [extractErrorMessage, errorKeys, findErrValue, hd]
  · intro fields v hd he
    simp [extractErrorMessage, errorKeys, findErrValue, hd, he]
  · intro fields v hd he hm
    simp [extractErrorMessage, errorKeys, findErrValue, hd, he, hm]
  · intro fields hd he hm
    simp [extractErrorMessage, errorKeys, findErrValue, hd, he, hm]
  · intro t ht
    simp [extractErrorMessage, ht]
  · intro t ht
    simp [extractErrorMessage, ht]

/-- Counterexample to C7 as stated: a single-space payload is a non-empty
string, yet the message is the period-terminated form, not the colon form
`"GET u failed (400):  "` the claim prescribes for non-empty string
payloads. -/
theorem extract_error_message_cex :
    (" " : String) ≠ "" ∧
    extractErrorMessage 400 (.str " ") "GET" "u" = "GET u failed (400)." ∧
    extractErrorMessage 400 (.str " ") "GET" "u" ≠ "GET u failed (400):  " := by
  refine ⟨by decide, by decide, by decide⟩

/-- Concrete instances of C7: a `detail` payload and an empty-object
payload, matching the spec's own examples. -/
theorem extract_error_message_spec_witness :
    extractErrorMessage 400 (.obj [("detail", .str "bad field")]) "POST" "u" =
      "POST u failed (400): bad field" ∧
    extractErrorMessage 400 (.obj []) "POST" "u" = "POST u failed (400)." := by
  constructor
  · exact ((extract_error_message_spec 400 "POST" "u").2.1
      [("detail", .str "bad field")] "bad field" (by decide)).trans (by decide)
  · exact ((extract_error_message_spec 400 "POST" "u").2.2.2.2.1 []
      (by decide) (by decide) (by decide)).trans (by decide)

/-- Retry loop under a persistently failing transport: from any loop index,
the run uses all remaining iterations, sleeps the exponential backoff at each
index but the last, and raises the wrapped `NetworkError` of the final
attempt. -/
theorem requestGo_allExc (method url : String) (backoff : ℚ) (N : Nat)
    (env : Nat → AttemptOutcome) (desc : Nat → String)
    (henv : ∀ i, env i = .exc (desc i)) :
    ∀ k attempt, attempt + (k + 1) = N + 1 →
      requestGo method url backoff N env attempt (k + 1) =
        { result := .error (networkErrorOf method url (desc N)),
          attempts := k + 1,
          sleeps := (List.range' attempt k).map (fun i => backoff * 2 ^ i),
          fellThrough := false } := by
  intro k
  induction k with
  | zero =>
    intro attempt h
    have ha : attempt = N := by omega
    subst ha
    simp [requestGo, requestIter, henv attempt]
  | succ k ih =>
    intro attempt h
    have hlt : attempt < N := by omega
    rw [requestGo_succ, henv attempt, ih (attempt + 1) (by omega)]
    simp only [requestIter]
    rw [if_pos hlt]
    simp [List.range'_succ]

/-- C1: with `max_retries = N` and every attempt raising a transport
exception, a request performs exactly `N + 1` attempts, sleeps
`backoff * 2 ^ i` between consecutive attempts `i` and `i + 1`, and raises a
`NetworkError` with no status code whose message wraps the final transport
failure description. -/
theorem request_persistent_transport_failure (method url : String) (backoff : ℚ)
    (N : Nat) (env : Nat → AttemptOutcome) (desc : Nat → String)
    (henv : ∀ i, env i = .exc (desc i)) :
    (runRequest method url backoff N env).attempts = N + 1 ∧
    (runRequest method url backoff N env).sleeps =
      (List.range N).map (fun i => backoff * 2 ^ i) ∧
    (runRequest method url backoff N env).result =
      .error { kind := .network,
               message := "Network error calling " ++ method ++ " " ++ url ++
                 ": " ++ desc N,
               statusCode := none, responseData := none } := by
  have h := requestGo_allExc method url backoff N env desc henv N 0 (by omega)
  unfold runRequest
  rw [h]
  refine ⟨rfl, ?_, rfl⟩
  simp [List.range_eq_range']

/-- Concrete instance of C1: `max_retries = 2`, a transport that always
raises `boom`, base backoff `1/2`: three attempts, sleeps `0.5` and `1.0`,
and the wrapped `NetworkError`. -/
theorem request_persistent_transport_failure_witness :
    (runRequest "GET" "https://x/u" (1/2 : ℚ) 2 (fun _ => .exc "boom")).attempts
      = 3 ∧
    (runRequest "GET" "https://x/u" (1/2 : ℚ) 2 (fun _ => .exc "boom")).sleeps
      = [1/2, 1] ∧
    (runRequest "GET" "https://x/u" (1/2 : ℚ) 2 (fun _ => .exc "boom")).result
      = .error { kind := .network,
                 message := "Network error calling GET https://x/u: boom",
                 statusCode := none, responseData := none } := by
  have h := request_persistent_transport_failure "GET" "https://x/u" (1/2) 2
    (fun _ => .exc "boom") (fun _ => "boom") (fun _ => rfl)
  exact ⟨h.1, h.2.1.trans (by norm_num [List.range_succ]), h.2.2.trans rfl⟩

/-- The retryable status codes, as an enumeration. -/
theorem retryable_cases {s : Nat} (hr : retryableStatus s = true) :
    s = 500 ∨ s = 502 ∨ s = 503 ∨ s = 504 := by
  unfold retryableStatus at hr
  simp only [Bool.or_eq_true, beq_iff_eq] at hr
  tauto

/-- Retry loop under persistently retryable responses: from any loop index,
the run uses all remaining iterations and maps the final response through
decoding and `_map_http_error`. -/
theorem requestGo_allRetryable (method url : String) (backoff : ℚ) (N : Nat)
    (env : Nat → AttemptOutcome) (r : Response)
    (henv : ∀ i, env i = .resp r) (hr : retryableStatus r.status = true) :
    ∀ k attempt, attempt + (k + 1) = N + 1 →
      requestGo method url backoff N env attempt (k + 1) =
        { result := .error (mapHttpError r.status (parseResponseData r) method url),
          attempts := k + 1,
          sleeps := (List.range' attempt k).map (fun i => backoff * 2 ^ i),
          fellThrough := false } := by
  have h5 : 500 ≤ r.status := by
    rcases retryable_cases hr with h' | h' | h' | h' <;> omega
  have h2xx : ¬(200 ≤ r.status ∧ r.status < 300) := by omega
  intro k
  induction k with
  | zero =>
    intro attempt h
    have ha : attempt = N := by omega
    subst ha
    simp [requestGo, requestIter, henv attempt, h2xx]
  | succ k ih =>
    intro attempt h
    have hlt : attempt < N := by omega
    rw [requestGo_succ, henv attempt, ih (attempt + 1) (by omega)]
    simp only [requestIter]
    rw [if_pos (by simp [hr, hlt])]
    simp [List.range'_succ]

/-- C2: with `max_retries = N` and every attempt answered by a response with
a retryable status (500, 502, 503 or 504), a request performs exactly `N + 1`
attempts and the final response is decoded and mapped to a `ServerError`
(not a `NetworkError`) carrying that status code. -/
theorem request_persistent_retryable_status (method url : String) (backoff : ℚ)
    (N : Nat) (env : Nat → AttemptOutcome) (r : Response)
    (henv : ∀ i, env i = .resp r) (hr : retryableStatus r.status = true) :
    (runRequest method url backoff N env).attempts = N + 1 ∧
    (runRequest method url backoff N env).result =
      .error (mapHttpError r.status (parseResponseData r) method url) ∧
    (mapHttpError r.status (parseResponseData r) method url).kind = .server ∧
    (mapHttpError r.status (parseResponseData r) method url).statusCode =
      some r.status := by
  have h := requestGo_allRetryable method url backoff N env r henv hr N 0
    (by omega)
  unfold runRequest
  rw [h]
  refine ⟨rfl, rfl, ?_, rfl⟩
  show mapKind r.status = .server
  rcases retryable_cases hr with h' | h' | h' | h' <;> rw [h'] <;> rfl

/-- Concrete instance of C2: `max_retries = 1` and a persistent 503: two
attempts, then the decoded `ServerError` with status 503. -/
theorem request_persistent_retryable_status_witness :
    (runRequest "GET" "u" (1/2 : ℚ) 1
      (fun _ => .resp ⟨503, some (.obj []), "e"⟩)).attempts = 2 ∧
    (runRequest "GET" "u" (1/2 : ℚ) 1
      (fun _ => .resp ⟨503, some (.obj []), "e"⟩)).result =
      .error (mapHttpError 503 (parseResponseData ⟨503, some (.obj []), "e"⟩)
        "GET" "u") ∧
    (mapHttpError 503 (parseResponseData ⟨503, some (.obj []), "e"⟩)
      "GET" "u").kind = .server :=
  have h := request_persistent_retryable_status "GET" "u" (1/2) 1
    (fun _ => .resp ⟨503, some (.obj []), "e"⟩) ⟨503, some (.obj []), "e"⟩
    (fun _ => rfl) rfl
  ⟨h.1, h.2.1, h.2.2.1⟩

/-- The loop body never falls through: from any loop index at most
`max_retries` with the loop invariant, the fall-through flag stays false. -/
theorem requestGo_no_fallthrough (method url : String) (backoff : ℚ) (N : Nat)
    (env : Nat → AttemptOutcome) :
    ∀ fuel attempt, attempt + fuel = N + 1 → attempt ≤ N →
      (requestGo method url backoff N env attempt fuel).fellThrough = false := by
  intro fuel
  induction fuel with
  | zero =>
    intro attempt h hle
    exfalso
    omega
  | succ fuel ih =>
    intro attempt h hle
    cases henv : env attempt with
    | exc d =>
      simp only [requestGo, henv, requestIter]
      by_cases hlt : attempt < N
      · rw [if_pos hlt]
        exact ih (attempt + 1) (by omega) (by omega)
      · rw [if_neg hlt]
    | resp r =>
      simp only [requestGo, henv, requestIter]
      by_cases hcond : (retryableStatus r.status && decide (attempt < N)) = true
      · rw [if_pos hcond]
        have hlt : attempt < N := by
          simp only [Bool.and_eq_true, decide_eq_true_eq] at hcond
          exact hcond.2
        exact ih (attempt + 1) (by omega) (by omega)
      · rw [if_neg hcond]
        split <;> rfl

/-- C10: for every `max_retries` and every environment of attempt outcomes,
the retry loop returns or raises from within its body, so the trailing
"Unexpected retry loop exit" `NetworkError` after the loop is unreachable. -/
theorem request_no_fallthrough (method url : String) (backoff : ℚ) (N : Nat)
    (env : Nat → AttemptOutcome) :
    (runRequest method url backoff N env).fellThrough = false :=
  requestGo_no_fallthrough method url backoff N env (N + 1) 0 (by omega)
    (by omega)

/-! Webhook verifier lemmas. -/

theorem lor_eq_zero_iff (m n : Nat) : m ||| n = 0 ↔ m = 0 ∧ n = 0 := by
  constructor
  · intro h
    refine ⟨Nat.zero_of_testBit_eq_false fun i => ?_,
      Nat.zero_of_testBit_eq_false fun i => ?_⟩ <;>
    · have := congrArg (fun x => x.testBit i) h
      simp [Nat.testBit_or] at this
      tauto
  · rintro ⟨rfl, rfl⟩
    rfl

theorem char_toNat_inj {c d : Char} (h : c.toNat = d.toNat) : c = d := by
  have := congrArg Char.ofNat h
  simpa using this

/-- The accumulated or-of-xors in `_tscmp` is zero exactly when the
accumulator is zero and the compared characters agree pointwise. -/
theorem ctFold_eq_zero (l : List (Char × Char)) (acc : Nat) :
    l.foldl (fun acc p => acc ||| (p.1.toNat ^^^ p.2.toNat)) acc = 0 ↔
      acc = 0 ∧ ∀ p ∈ l, p.1 = p.2 := by
  induction l generalizing acc with
  | nil => simp
  | cons p l ih =>
    rw [List.foldl_cons, ih]
    constructor
    · rintro ⟨hacc, hall⟩
      obtain ⟨h1, h2⟩ := (lor_eq_zero_iff _ _).mp hacc
      refine ⟨h1, fun q hq => ?_⟩
      rcases List.mem_cons.mp hq with rfl | hq'
      · exact char_toNat_inj (Nat.xor_eq_zero.mp h2)
      · exact hall q hq'
    · rintro ⟨hacc, hall⟩
      refine ⟨(lor_eq_zero_iff _ _).mpr ⟨hacc, ?_⟩,
        fun q hq => hall q (List.mem_cons_of_mem _ hq)⟩
      exact Nat.xor_eq_zero.mpr
        (congrArg Char.toNat (hall p (List.mem_cons_self _ _)))

/-- Pointwise equality along a zip of equal-length lists is list equality. -/
theorem zip_pointwise_eq (a : List Char) :
    ∀ b : List Char, a.length = b.length →
      ((∀ p ∈ List.zip a b, p.1 = p.2) ↔ a = b) := by
  induction a with
  | nil =>
    intro b hlen
    cases b with
    | nil => simp
    | cons y ys => simp at hlen
  | cons x xs ih =>
    intro b hlen
    cases b with
    | nil => simp at hlen
    | cons y ys =>
      simp only [List.zip_cons_cons]
      constructor
      · intro hall
        have hxy : x = y := hall (x, y) (List.mem_cons_self _ _)
        have hxs : xs = ys := (ih ys (by simpa using hlen)).mp
          (fun p hp => hall p (List.mem_cons_of_mem _ hp))
        rw [hxy, hxs]
      · intro heq
        injection heq with h1 h2
        subst h1
        subst h2
        intro p hp
        rcases List.mem_cons.mp hp with rfl | hp'
        · rfl
        · exact ((ih xs rfl).mpr rfl) p hp'

/-- The constant-time comparison is functionally string equality. -/
theorem constTimeEq_iff (a b : List Char) : constTimeEq a b = true ↔ a = b := by
  unfold constTimeEq
  rw [Bool.and_eq_true, beq_iff_eq, beq_iff_eq]
  constructor
  · rintro ⟨hlen, hfold⟩
    exact (zip_pointwise_eq a b hlen).mp ((ctFold_eq_zero _ _).mp hfold).2
  · rintro rfl
    exact ⟨rfl, (ctFold_eq_zero _ _).mpr ⟨rfl, (zip_pointwise_eq a a rfl).mpr rfl⟩⟩

theorem hexDigit_mem (n : Nat) : hexDigitChars.getD n '0' ∈ hexDigitChars := by
  rw [List.getD_eq_getElem?_getD]
  cases h : hexDigitChars[n]? with
  | none => simp [h]; decide
  | some c =>
    simp [h]
    exact List.getElem?_mem h

theorem hexByte_subset (b : Nat) : ∀ c ∈ hexByte b, c ∈ hexDigitChars := by
  intro c hc
  unfold hexByte at hc
  rcases List.mem_cons.mp hc with rfl | hc'
  · exact hexDigit_mem _
  · rcases List.mem_cons.mp hc' with rfl | hc''
    · exact hexDigit_mem _
    · cases hc''

/-- Every character emitted by the hex encoder is a lowercase hex digit. -/
theorem hexEncode_chars (bs : List Nat) :
    ∀ c ∈ (hexEncode bs).data, c ∈ hexDigitChars := by
  intro c hc
  have hc' : c ∈ (bs.map hexByte).flatten := hc
  rcases List.mem_flatten.mp hc' with ⟨l, hl, hcl⟩
  rcases List.mem_map.mp hl with ⟨b, _, rfl⟩
  exact hexByte_subset b c hcl

theorem hexChar_ascii : ∀ c ∈ hexDigitChars, c.toNat < 128 := by decide

/-- Hex digests are ASCII-only strings. -/
theorem hexEncode_ascii (bs : List Nat) : isAsciiStr (hexEncode bs) = true := by
  unfold isAsciiStr
  rw [List.all_eq_true]
  intro c hc
  simp only [decide_eq_true_eq]
  exact hexChar_ascii c (hexEncode_chars bs c hc)

theorem compareDigest_ok {a b : String} (ha : isAsciiStr a = true)
    (hb : isAsciiStr b = true) :
    compareDigest a b = .ok (constTimeEq a.data b.data) := by
  unfold compareDigest
  rw [if_pos (by rw [ha, hb]; rfl)]

theorem compareDigest_nonAscii {a b : String} (hb : isAsciiStr b = false) :
    compareDigest a b = .error .typeError := by
  unfold compareDigest
  rw [if_neg (by rw [hb]; simp)]

/-- C8 (amended): verification succeeds exactly when the whitespace-stripped
received signature equals the lowercase hex HMAC-SHA256 of the payload keyed
by the UTF-8 bytes of the secret; whenever the stripped signature is ASCII
(every well-formed signature is) a boolean is returned and nothing is raised;
and the computed signature consists of lowercase hex digits only. -/
theorem verify_signature_spec (secret : String) (rawPayload : List Nat)
    (received : String) :
    (verifySignature secret rawPayload received = .ok true ↔
      pyStrip received = hexEncode (hmacSha256 (utf8Encode secret) rawPayload)) ∧
    (isAsciiStr (pyStrip received) = true →
      ∃ result : Bool, verifySignature secret rawPayload received = .ok result) ∧
    (∀ c ∈ (computeSignature secret rawPayload).data, c ∈ hexDigitChars) := by
  have hexp : isAsciiStr (computeSignature secret rawPayload) = true :=
    hexEncode_ascii _
  refine ⟨?_, fun hb => ⟨_, compareDigest_ok hexp hb⟩, hexEncode_chars _⟩
  unfold verifySignature
  by_cases hb : isAsciiStr (pyStrip received) = true
  · rw [compareDigest_ok hexp hb]
    constructor
    · intro hok
      have hct : constTimeEq (computeSignature secret rawPayload).data
          (pyStrip received).data = true := by
        simpa using hok
      exact (String.ext ((constTimeEq_iff _ _).mp hct)).symm
    · intro hstrip
      have he : pyStrip received = computeSignature secret rawPayload := hstrip
      rw [he]
      exact congrArg Except.ok ((constTimeEq_iff _ _).mpr rfl)
  · have hb' : isAsciiStr (pyStrip received) = false := by
      cases hh : isAsciiStr (pyStrip received)
      · rfl
      · exact absurd hh hb
    rw [compareDigest_nonAscii hb']
    constructor
    · intro h
      simp at h
    · intro hstrip
      exfalso
      apply hb
      rw [hstrip]
      exact hexEncode_ascii _

/-- Counterexample to C8 as stated: `verify_signature` does not return a
boolean on every input — a received signature containing a non-ASCII
character (not removed by stripping) makes `hmac.compare_digest` raise
`TypeError`. -/
theorem verify_signature_cex :
    verifySignature "secret" [97, 98, 99] "ÿ" = .error .typeError := by
  unfold verifySignature
  exact compareDigest_nonAscii (by decide)

/-- Concrete instance of C8: the correct signature of payload `abc` under
secret `sek`, with surrounding whitespace, verifies. -/
theorem verify_signature_spec_witness :
    verifySignature "sek" [97, 98, 99]
      " fb207689a5f6631d26afd33c5e5ecd761e74068794287581325b9737c8fbcd72\t" =
      .ok true :=
  (verify_signature_spec "sek" [97, 98, 99]
    " fb207689a5f6631d26afd33c5e5ecd761e74068794287581325b9737c8fbcd72\t").1.mpr
    rfl

theorem verify_error_typeError {secret : String} {rawPayload : List Nat}
    {received : String} {e : PyExc}
    (h : verifySignature secret rawPayload received = .error e) :
    e = .typeError := by
  unfold verifySignature compareDigest at h
  by_cases hc : (isAsciiStr (computeSignature secret rawPayload) &&
      isAsciiStr (pyStrip received)) = true
  · rw [if_pos hc] at h
    simp at h
  · rw [if_neg hc] at h
    injection h with h'
    exact h'.symm

/-- C9: `verify_signature_or_raise` raises `WebhookSignatureError` (a
validation-kind error) exactly when `verify_signature` returns false on the
same inputs, and returns normally with no value when it returns true. -/
theorem verify_or_raise_spec (secret : String) (rawPayload : List Nat)
    (received : String) :
    (verifySignatureOrRaise secret rawPayload received =
        .error (.webhookSignatureError "Invalid webhook signature.") ↔
      verifySignature secret rawPayload received = .ok false) ∧
    (verifySignature secret rawPayload received = .ok true →
      verifySignatureOrRaise secret rawPayload received = .ok ()) ∧
    excIsValidationKind (.webhookSignatureError "Invalid webhook signature.") =
      true := by
  refine ⟨?_, fun h => ?_, rfl⟩
  · unfold verifySignatureOrRaise
    cases hv : verifySignature secret rawPayload received with
    | ok b => cases b <;> simp
    | error e =>
      have he : e = .typeError := verify_error_typeError hv
      subst he
      simp
  · unfold verifySignatureOrRaise
    rw [h]

/-- Concrete instance of C9: a mismatched signature raises the webhook
signature error. -/
theorem verify_or_raise_spec_witness :
    verifySignatureOrRaise "sek" [97, 98, 99] "zz" =
      .error (.webhookSignatureError "Invalid webhook signature.") :=
  (verify_or_raise_spec "sek" [97, 98, 99] "zz").1.mpr rfl

end Hovercode
